import Mathlib

/-!
Shallow embedding of the Low-Level-Design-JS repository, covering the
Command pattern (inventory actions with logging and undo), the Composite
pattern (file-system tree), and the Visitor pattern (item calculations).
JavaScript numbers are modelled as `Int` for stock quantities and file
sizes, and as `Rat` for prices and the amounts computed from percentage
rates.
-/

namespace Command

/-- State of the `Inventory` class: `productName`, `price` and
`currentStock` fields. -/
structure Inventory where
  productName : String
  price : Int
  currentStock : Int
  deriving Repr, DecidableEq

/-- The `Inventory` constructor: stores the product name and price and
initialises `currentStock` to `0`. -/
def Inventory.new (productName : String) (price : Int) : Inventory :=
  { productName := productName, price := price, currentStock := 0 }

/-- `Inventory.addInventory`: `this.currentStock = this.currentStock + quantity`. -/
def Inventory.addInventory (inv : Inventory) (quantity : Int) : Inventory :=
  { inv with currentStock := inv.currentStock + quantity }

/-- `Inventory.removeInventory`: `this.currentStock = this.currentStock - quantity`. -/
def Inventory.removeInventory (inv : Inventory) (quantity : Int) : Inventory :=
  { inv with currentStock := inv.currentStock - quantity }

/-- An `InventoryAction` bound to its quantity; the subject `Inventory` is
passed explicitly when executing (the classes `AddInventory` and
`RemoveInventory` each hold an inventory reference and a quantity). -/
inductive InventoryAction where
  | addInventoryAction (quantity : Int)
  | removeInventoryAction (quantity : Int)
  deriving Repr, DecidableEq

/-- `execute()`: `AddInventory.execute` calls `inventory.addInventory(quantity)`;
`RemoveInventory.execute` calls `inventory.removeInventory(quantity)`. -/
def InventoryAction.execute : InventoryAction → Inventory → Inventory
  | .addInventoryAction q, inv => inv.addInventory q
  | .removeInventoryAction q, inv => inv.removeInventory q

/-- `undo()`: `AddInventory.undo` calls `inventory.removeInventory(quantity)`;
`RemoveInventory.undo` calls `inventory.addInventory(quantity)`. -/
def InventoryAction.undo : InventoryAction → Inventory → Inventory
  | .addInventoryAction q, inv => inv.removeInventory q
  | .removeInventoryAction q, inv => inv.addInventory q

/-- Combined state of the `Logging` object (its `operations` array) and the
single `Inventory` subject the logged actions act on. -/
structure LoggingState where
  operations : List InventoryAction
  inv : Inventory
  deriving Repr, DecidableEq

/-- `Logging.executeWithLogging(action)`: calls `action.execute()` and then
pushes `action` onto the end of `operations`. -/
def executeWithLogging (st : LoggingState) (a : InventoryAction) : LoggingState :=
  { operations := st.operations ++ [a], inv := a.execute st.inv }

/-- `Logging.undoWithLogging()`: `operations.pop()` removes and returns the
last element (or `undefined` on an empty array); if an action was popped,
its `undo()` is called. -/
def undoWithLogging (st : LoggingState) : LoggingState :=
  match st.operations.getLast? with
  | none => st
  | some a => { operations := st.operations.dropLast, inv := a.undo st.inv }

end Command

namespace Composite

/-- The `FileSystemItem` hierarchy: `Files` leaves carry a `name` and a
`size`; `Folder` nodes carry a `name` and their `childs` array (in
insertion order, as built by `addItem` pushes). -/
inductive FileSystemItem where
  | files (name : String) (size : Int)
  | folder (name : String) (childs : List FileSystemItem)

open FileSystemItem

/-- `Folder.addItem(item)`: `this.childs.push(item)` appends the item at
the end of the folder's child array (no other effect). On a leaf the
method does not exist; the leaf is returned unchanged. -/
def addItem : FileSystemItem → FileSystemItem → FileSystemItem
  | folder n cs, item => folder n (cs ++ [item])
  | files n s, _ => files n s

mutual

/-- `getSize()`: `Files.getSize` returns `this.size`; `Folder.getSize`
starts `total = 0` and adds `item.getSize()` for each child in order. -/
def getSize : FileSystemItem → Int
  | files _ s => s
  | folder _ cs => getSizeList cs

/-- The `for(const item of this.childs) total += item.getSize()` loop. -/
def getSizeList : List FileSystemItem → Int
  | [] => 0
  | c :: cs => getSize c + getSizeList cs

end

mutual

/-- `printStructure(indent)` as the ordered list of emitted lines:
`Files.printStructure` emits `indent + this.name`; `Folder.printStructure`
emits `console.log(this.name, "/")` (arguments joined by a space) and then
recurses into each child with `indent + " "`. -/
def printStructure : FileSystemItem → String → List String
  | files n _, indent => [indent ++ n]
  | folder n cs, indent => (n ++ " " ++ "/") :: printStructureList cs (indent ++ " ")

/-- The `for(const item of this.childs) item.printStructure(indent + " ")` loop. -/
def printStructureList : List FileSystemItem → String → List String
  | [], _ => []
  | c :: cs, indent => printStructure c indent ++ printStructureList cs indent

end

mutual

/-- `delete()` as the ordered list of emitted lines: `Files.delete` emits
`console.log("Deleting File: ", this.name)`; `Folder.delete` first calls
`item.delete()` on every child in order, then emits
`console.log("Deleting folder: ", this.name)`. Neither method assigns to
any field. -/
def deleteMessages : FileSystemItem → List String
  | files n _ => ["Deleting File: " ++ " " ++ n]
  | folder n cs => deleteMessagesList cs ++ ["Deleting folder: " ++ " " ++ n]

/-- The `for(const item of this.childs) item.delete()` loop. -/
def deleteMessagesList : List FileSystemItem → List String
  | [] => []
  | c :: cs => deleteMessages c ++ deleteMessagesList cs

end

/-- Running `delete()` on a node: the pair of the post-call state of the
node and the emitted output. The bodies of `Files.delete` and
`Folder.delete` contain no assignment, so the node (and every descendant)
is left exactly as it was. -/
def runDelete (t : FileSystemItem) : FileSystemItem × List String :=
  (t, deleteMessages t)

/-- The message that a node's own `delete()` call emits for itself. -/
def selfDeleteMessage : FileSystemItem → String
  | files n _ => "Deleting File: " ++ " " ++ n
  | folder n _ => "Deleting folder: " ++ " " ++ n

mutual

/-- Sizes of all descendant leaves of a node, in left-to-right order. -/
def leafSizes : FileSystemItem → List Int
  | files _ s => [s]
  | folder _ cs => leafSizesList cs

def leafSizesList : List FileSystemItem → List Int
  | [] => []
  | c :: cs => leafSizes c ++ leafSizesList cs

end

mutual

/-- Number of nodes (leaves and containers) in a subtree. -/
def nodeCount : FileSystemItem → Nat
  | files _ _ => 1
  | folder _ cs => 1 + nodeCountList cs

def nodeCountList : List FileSystemItem → Nat
  | [] => 0
  | c :: cs => nodeCount c + nodeCountList cs

end

/-- The scenario tree `Home{Documents{readme.txt(5), data.csv(300)}, Pictures{photo.jpg(1500)}}`. -/
def demoHome : FileSystemItem :=
  folder "Home"
    [ folder "Documents" [files "readme.txt" 5, files "data.csv" 300],
      folder "Pictures" [files "photo.jpg" 1500] ]

end Composite

namespace CompositeHeap

/-!
Object-identity view of the composite structure. `Folder.addItem` mutates
a folder object reachable by reference, so to reason about sharing and
cycles the objects live in a store indexed by identity, and a folder's
`childs` array holds identities.
-/

/-- Identity of a heap-allocated `FileSystemItem` object. -/
abbrev NodeId := Nat

/-- A heap object: a `Files` leaf or a `Folder` with its `childs` array of
references. -/
inductive NodeObj where
  | fileObj (name : String) (size : Int)
  | folderObj (name : String) (childs : List NodeId)
  deriving DecidableEq

/-- The object store: each identity maps to the current state of its object. -/
def Store := NodeId → NodeObj

/-- `Folder.addItem(item)` on the heap: `this.childs.push(item)` appends
the reference `c` to folder `p`'s child array, with no membership,
ancestry, or parent check; every other object is untouched. -/
def addItem (s : Store) (p c : NodeId) : Store :=
  fun q =>
    if q = p then
      match s p with
      | .folderObj n cs => .folderObj n (cs ++ [c])
      | o => o
    else s q

/-- The `childs` array of the object at `i` (empty for a leaf). -/
def childsOf (s : Store) (i : NodeId) : List NodeId :=
  match s i with
  | .folderObj _ cs => cs
  | .fileObj _ _ => []

/-- A two-folder, one-file store: folder `0`, folder `1`, file `2`. -/
def demoStore : Store :=
  fun q =>
    if q = (0 : Nat) then .folderObj "A" []
    else if q = (1 : Nat) then .folderObj "B" []
    else .fileObj "x" 1

end CompositeHeap

namespace Visitor

/-- The concrete `Item` variants, each carrying its `name` and `price`. -/
inductive ItemV where
  | book (name : String) (price : Rat)
  | clothes (name : String) (price : Rat)
  | electronics (name : String) (price : Rat)
  | stationary (name : String) (price : Rat)
  deriving Repr, DecidableEq

/-- The `price` field inherited from the abstract `Item` class. -/
def ItemV.price : ItemV → Rat
  | .book _ p => p
  | .clothes _ p => p
  | .electronics _ p => p
  | .stationary _ p => p

/-- The `ApplyCalculation` visitor interface: four methods, each taking an
item and reporting an amount (the number printed by the method's
`console.log`). -/
structure ApplyCalculation where
  applyForBook : ItemV → Rat
  applyForCloth : ItemV → Rat
  applyForElectnics : ItemV → Rat
  applyForStationary : ItemV → Rat

/-- `accept(visitor)` as written in each concrete class: `Book.accept`
calls `visitor.applyForBook(this)`, `Clothes.accept` calls
`visitor.applyForCloth(this)`, `Electronics.accept` calls
`visitor.applyForElectnics(this)`, and `Stationary.accept` also calls
`visitor.applyForElectnics(this)`. -/
def accept (it : ItemV) (v : ApplyCalculation) : Rat :=
  match it with
  | .book n p => v.applyForBook (.book n p)
  | .clothes n p => v.applyForCloth (.clothes n p)
  | .electronics n p => v.applyForElectnics (.electronics n p)
  | .stationary n p => v.applyForElectnics (.stationary n p)

/-- The `CalculatePrice` visitor: every method reports `item.price`. -/
def CalculatePrice : ApplyCalculation :=
  { applyForBook := fun i => i.price
    applyForCloth := fun i => i.price
    applyForElectnics := fun i => i.price
    applyForStationary := fun i => i.price }

/-- The `ApplyDiscount` visitor: `item.price * 0.02` for books, `* 0.08`
for clothes, `* 0.12` for electronics, `* 0.11` for stationary. -/
def ApplyDiscount : ApplyCalculation :=
  { applyForBook := fun i => i.price * (2 / 100)
    applyForCloth := fun i => i.price * (8 / 100)
    applyForElectnics := fun i => i.price * (12 / 100)
    applyForStationary := fun i => i.price * (11 / 100) }

/-- The `ApplyGst` visitor: `item.price * 0.05` for books, `* 0.12` for
clothes, `* 0.18` for electronics, `* 0.09` for stationary. -/
def ApplyGst : ApplyCalculation :=
  { applyForBook := fun i => i.price * (5 / 100)
    applyForCloth := fun i => i.price * (12 / 100)
    applyForElectnics := fun i => i.price * (18 / 100)
    applyForStationary := fun i => i.price * (9 / 100) }

end Visitor

namespace Command

/-- Shared helper: each inventory action's `undo()` exactly reverts its
`execute()`. -/
theorem InventoryAction.undo_execute (a : InventoryAction) (inv : Inventory) :
    a.undo (a.execute inv) = inv := by
  cases inv with
  | mk n p s =>
    cases a with
    | addInventoryAction q =>
      simp [InventoryAction.execute, InventoryAction.undo, Inventory.addInventory,
        Inventory.removeInventory]
    | removeInventoryAction q =>
      simp [InventoryAction.execute, InventoryAction.undo, Inventory.addInventory,
        Inventory.removeInventory]

end Command

namespace Composite

mutual

/-- Shared helper: a node's size is the sum of the sizes of its descendant
leaves. -/
theorem getSize_leaf_sum : ∀ t : FileSystemItem, getSize t = (leafSizes t).sum
  | .files n s => by simp [getSize, leafSizes]
  | .folder n cs => by
      rw [getSize, leafSizes, getSizeList_leaf_sum cs]

theorem getSizeList_leaf_sum : ∀ l : List FileSystemItem,
    getSizeList l = (leafSizesList l).sum
  | [] => by simp [getSizeList, leafSizesList]
  | c :: cs => by
      rw [getSizeList, leafSizesList, List.sum_append, getSize_leaf_sum c,
        getSizeList_leaf_sum cs]

end

mutual

/-- Shared helper: `delete()` emits exactly one message per node of the
subtree. -/
theorem deleteMessages_length : ∀ t : FileSystemItem,
    (deleteMessages t).length = nodeCount t
  | .files n s => by simp [deleteMessages, nodeCount]
  | .folder n cs => by
      rw [deleteMessages, nodeCount, List.length_append,
        deleteMessagesList_length cs]
      simp [Nat.add_comm]

theorem deleteMessagesList_length : ∀ l : List FileSystemItem,
    (deleteMessagesList l).length = nodeCountList l
  | [] => by simp [deleteMessagesList, nodeCountList]
  | c :: cs => by
      rw [deleteMessagesList, nodeCountList, List.length_append,
        deleteMessages_length c, deleteMessagesList_length cs]

end

mutual

/-- Shared helper: `printStructure` emits exactly one line per node of the
subtree. -/
theorem printStructure_length : ∀ (t : FileSystemItem) (indent : String),
    (printStructure t indent).length = nodeCount t
  | .files n s, indent => by simp [printStructure, nodeCount]
  | .folder n cs, indent => by
      rw [printStructure, nodeCount, List.length_cons,
        printStructureList_length cs]
      simp [Nat.add_comm]

theorem printStructureList_length : ∀ (l : List FileSystemItem) (indent : String),
    (printStructureList l indent).length = nodeCountList l
  | [], indent => by simp [printStructureList, nodeCountList]
  | c :: cs, indent => by
      rw [printStructureList, List.length_append, nodeCountList,
        printStructure_length c, printStructureList_length cs]

end

/-- Shared helper: the last message emitted by `delete()` is the node's own
deletion message. -/
theorem deleteMessages_getLast (t : FileSystemItem) :
    (deleteMessages t).getLast? = some (selfDeleteMessage t) := by
  cases t with
  | files n s => rfl
  | folder n cs =>
    rw [deleteMessages, selfDeleteMessage, List.getLast?_concat]

end Composite

/-- Claim C1: the code at the failing input. `Stationary.accept` calls
`visitor.applyForElectnics(this)` instead of `visitor.applyForStationary(this)`,
so a stationary item priced 100 reports a discount of 12 (the 12%
electronics rate) although the stationary discount method would report 11,
and a GST of 18 (the 18% electronics rate) although the stationary GST
method would report 9; for every visitor, `accept` on a stationary item
invokes the electronics entry point. -/
theorem visitor_stationary_accept_dispatch_bug :
    Visitor.accept (.stationary "Pen" 100) Visitor.ApplyDiscount = 12 ∧
    Visitor.ApplyDiscount.applyForStationary (.stationary "Pen" 100) = 11 ∧
    Visitor.accept (.stationary "Pen" 100) Visitor.ApplyGst = 18 ∧
    Visitor.ApplyGst.applyForStationary (.stationary "Pen" 100) = 9 ∧
    (∀ v : Visitor.ApplyCalculation,
      Visitor.accept (.stationary "Pen" 100) v =
        v.applyForElectnics (.stationary "Pen" 100)) := by
  refine ⟨?_, ?_, ?_, ?_, fun v => rfl⟩ <;>
    norm_num [Visitor.accept, Visitor.ApplyDiscount, Visitor.ApplyGst, Visitor.ItemV.price]

/-- Claim C2: for every composite tree, `getSize()` of a node equals the
sum of the sizes of all descendant leaves: a leaf returns its own size and
a container returns the sum of `getSize()` over its children. -/
theorem composite_getSize_is_sum_of_leaf_sizes (t : Composite.FileSystemItem) :
    Composite.getSize t = (Composite.leafSizes t).sum :=
  Composite.getSize_leaf_sum t

/-- Claim C3: for every inventory state and quantity, executing an
`AddInventory` or `RemoveInventory` action and then calling its `undo()`
restores `currentStock` (indeed the whole inventory) to its value before
`execute()`: execute and undo are exact inverses. -/
theorem command_action_undo_reverts_execute (a : Command.InventoryAction)
    (inv : Command.Inventory) :
    a.undo (a.execute inv) = inv :=
  Command.InventoryAction.undo_execute a inv

/-- Claim C4: `executeWithLogging` performs the action's effect and appends
the action at the end of the log, and `undoWithLogging` removes the most
recently appended action and applies its undo, so execute-then-undo is the
identity on the whole logging state; concretely, starting from stock 12,
recording `Add(100)` then `Remove(20)` yields stock 92, one undo yields
112, and a second undo yields 12. -/
theorem command_logging_execute_then_record_lifo :
    (∀ (st : Command.LoggingState) (a : Command.InventoryAction),
      Command.executeWithLogging st a =
        { operations := st.operations ++ [a], inv := a.execute st.inv } ∧
      Command.undoWithLogging (Command.executeWithLogging st a) = st) ∧
    (Command.executeWithLogging (Command.executeWithLogging
        { operations := [],
          inv := { productName := "ABC", price := 12, currentStock := 12 } }
        (.addInventoryAction 100)) (.removeInventoryAction 20)).inv.currentStock = 92 ∧
    (Command.undoWithLogging (Command.executeWithLogging (Command.executeWithLogging
        { operations := [],
          inv := { productName := "ABC", price := 12, currentStock := 12 } }
        (.addInventoryAction 100)) (.removeInventoryAction 20))).inv.currentStock = 112 ∧
    (Command.undoWithLogging (Command.undoWithLogging
      (Command.executeWithLogging (Command.executeWithLogging
        { operations := [],
          inv := { productName := "ABC", price := 12, currentStock := 12 } }
        (.addInventoryAction 100))
        (.removeInventoryAction 20)))).inv.currentStock = 12 := by
  refine ⟨fun st a => ⟨rfl, ?_⟩, by decide, by decide, by decide⟩
  simp [Command.undoWithLogging, Command.executeWithLogging, List.getLast?_concat,
    List.dropLast_concat, Command.InventoryAction.undo_execute]

/-- Claim C5 counterexample: `delete()` on the root of the demo tree does
not remove anything: a subsequent `printStructure` traversal of the
post-delete state visits six nodes, not zero. -/
theorem composite_delete_root_still_traversable :
    0 < (Composite.printStructure (Composite.runDelete Composite.demoHome).fst "").length ∧
    (Composite.printStructure (Composite.runDelete Composite.demoHome).fst "").length = 6 := by
  decide

/-- Claim C5 (amended): `delete()` emits one deletion message per node of
the subtree but does not modify the tree: the post-delete state is the
unchanged tree, so every node stays extant and traversable and the node
remains reusable — on the demo tree, `printStructure` still visits every
node and `getSize` still returns 1805 after `delete()`. -/
theorem composite_delete_only_reports :
    (∀ t : Composite.FileSystemItem, (Composite.runDelete t).fst = t) ∧
    (∀ t : Composite.FileSystemItem,
      (Composite.runDelete t).snd.length = Composite.nodeCount t) ∧
    (Composite.printStructure (Composite.runDelete Composite.demoHome).fst "").length =
      Composite.nodeCount Composite.demoHome ∧
    Composite.getSize (Composite.runDelete Composite.demoHome).fst = 1805 :=
  ⟨fun _ => rfl, fun t => Composite.deleteMessages_length t, by decide, by decide⟩

/-- Claim C6: `printStructure` emits one line per node in pre-order — on
the tree `Home(Documents(readme.txt, data.csv), Pictures(photo.jpg))` the
emitted lines are exactly `Home /`, `Documents /`, `  readme.txt`,
`  data.csv`, `Pictures /`, `  photo.jpg`: a leaf line is its indent
followed by its name, a container line is its name marked with `/`, and
children are visited in insertion order with the indent extended by one
space. -/
theorem composite_printStructure_preorder :
    (∀ (t : Composite.FileSystemItem) (indent : String),
      (Composite.printStructure t indent).length = Composite.nodeCount t) ∧
    Composite.printStructure Composite.demoHome "" =
      ["Home /", "Documents /", "  readme.txt", "  data.csv",
       "Pictures /", "  photo.jpg"] :=
  ⟨Composite.printStructure_length, by decide⟩

/-- Claim C7: `undoWithLogging()` on an empty log is a no-op that leaves
the log empty and the inventory unchanged; on a non-empty log it removes
exactly the most recently appended action and applies that action's
`undo()`. -/
theorem command_undo_empty_log_noop :
    (∀ inv : Command.Inventory,
      Command.undoWithLogging { operations := [], inv := inv } =
        { operations := [], inv := inv }) ∧
    (∀ (ops : List Command.InventoryAction) (a : Command.InventoryAction)
        (inv : Command.Inventory),
      Command.undoWithLogging { operations := ops ++ [a], inv := inv } =
        { operations := ops, inv := a.undo inv }) := by
  refine ⟨fun inv => rfl, fun ops a inv => ?_⟩
  simp [Command.undoWithLogging, List.getLast?_concat, List.dropLast_concat]

/-- Claim C8: `delete()` on a container processes children bottom-up — its
message list is the concatenation of the children's full message lists in
order, followed by the container's own message, and the container's own
message is always the last one emitted; a leaf's `delete()` emits only its
own message; an empty container has `getSize() = 0` and its
`printStructure` emits only its own name line. -/
theorem composite_delete_bottom_up :
    (∀ (n : String) (cs : List Composite.FileSystemItem),
      Composite.deleteMessages (.folder n cs) =
        Composite.deleteMessagesList cs ++
          [Composite.selfDeleteMessage (.folder n cs)]) ∧
    (∀ (c : Composite.FileSystemItem) (cs : List Composite.FileSystemItem),
      Composite.deleteMessagesList (c :: cs) =
        Composite.deleteMessages c ++ Composite.deleteMessagesList cs) ∧
    (∀ (n : String) (s : Int),
      Composite.deleteMessages (.files n s) =
        [Composite.selfDeleteMessage (.files n s)]) ∧
    (∀ t : Composite.FileSystemItem,
      (Composite.deleteMessages t).getLast? =
        some (Composite.selfDeleteMessage t)) ∧
    (∀ n : String, Composite.getSize (.folder n []) = 0) ∧
    (∀ (n indent : String),
      Composite.printStructure (.folder n []) indent = [n ++ " " ++ "/"]) :=
  ⟨fun _ _ => rfl, fun _ _ => rfl, fun _ _ => rfl,
    Composite.deleteMessages_getLast, fun _ => rfl, fun _ _ => rfl⟩

/-- Claim C9 counterexample: `addItem` enforces no tree shape — after
`addItem(folder 0, node 2)` and `addItem(folder 1, node 2)` the same node
`2` is a child of both folders `0` and `1`, and after
`addItem(folder 0, folder 0)` folder `0` is its own child, a cycle. -/
theorem compositeHeap_addItem_shares_and_cycles :
    (2 : CompositeHeap.NodeId) ∈
      CompositeHeap.childsOf
        (CompositeHeap.addItem (CompositeHeap.addItem CompositeHeap.demoStore 0 2) 1 2) 0 ∧
    (2 : CompositeHeap.NodeId) ∈
      CompositeHeap.childsOf
        (CompositeHeap.addItem (CompositeHeap.addItem CompositeHeap.demoStore 0 2) 1 2) 1 ∧
    (0 : CompositeHeap.NodeId) ∈
      CompositeHeap.childsOf (CompositeHeap.addItem CompositeHeap.demoStore 0 0) 0 := by
  decide

/-- Claim C9 (amended): `Folder.addItem` unconditionally appends the item
reference to the folder's `childs` array, with no check for an existing
parent or for cycles, so tree shape is a usage convention of the client
code, not an invariant `addItem` enforces. -/
theorem compositeHeap_addItem_appends (s : CompositeHeap.Store)
    (p c : CompositeHeap.NodeId) (n : String) (cs : List CompositeHeap.NodeId)
    (h : s p = .folderObj n cs) :
    CompositeHeap.childsOf (CompositeHeap.addItem s p c) p = cs ++ [c] := by
  simp [CompositeHeap.childsOf, CompositeHeap.addItem, h]

/-- Witness for the amended C9 theorem at folder `0` of the demo store. -/
theorem compositeHeap_addItem_appends_witness :
    CompositeHeap.demoStore 0 = .folderObj "A" [] ∧
    CompositeHeap.childsOf (CompositeHeap.addItem CompositeHeap.demoStore 0 2) 0 =
      [] ++ [2] :=
  ⟨rfl, compositeHeap_addItem_appends CompositeHeap.demoStore 0 2 "A" [] rfl⟩

/-- Claim C10: for every name and price, a freshly constructed
`Inventory(name, price)` has `currentStock = 0`; in particular
`new Inventory("ABC", 12)` has stock `0`, not `12`. -/
theorem command_inventory_initial_stock_zero :
    (∀ (n : String) (p : Int), (Command.Inventory.new n p).currentStock = 0) ∧
    (Command.Inventory.new "ABC" 12).currentStock = 0 ∧
    (Command.Inventory.new "ABC" 12).price = 12 :=
  ⟨fun _ _ => rfl, rfl, rfl⟩
